/-
Verification of the conversion pipeline in `convert_bge_to_onnx.py`.

The script is a straight-line pipeline: it creates an output directory,
downloads a tokenizer and a model from a remote registry, saves them to
disk, exports the model to an ONNX graph with fixed export options, then
dynamically quantizes the exported graph, printing progress messages
throughout.  The `__main__` block wraps the whole pipeline in a single
`try`/`except` that prints an error message and a traceback on failure.

We embed the script shallowly as a fixed, ordered list of external calls
(`pipeline_calls`, one entry per effectful source line), executed against
an environment `Env` that decides, for each external call, whether the
external library raises an exception.  `download_and_convert` returns the
trace of calls that completed together with either the returned path or
the propagated exception; `main_block` models the `__main__` guard.
-/
import Mathlib

namespace ConvertBgeToOnnx

/-- A Python exception, rendered as its message string (what `{e}` formats to). -/
abbrev PyException := String

deriving instance DecidableEq for Except

/-- The `QuantType` enumeration of `onnxruntime.quantization`
(only the members relevant to the script). Source line 9. -/
inductive QuantType where
  | QInt8
  | QUInt8
deriving DecidableEq, Repr

/-- The keyword arguments of the tokenizer call on source line 29:
`tokenizer(dummy_text, return_tensors="pt", padding=True, truncation=True, max_length=512)`. -/
structure TokenizedInput where
  text : String
  return_tensors : String
  padding : Bool
  truncation : Bool
  max_length : Nat
deriving DecidableEq, Repr

/-- The arguments of the `torch.onnx.export` call on source lines 33-46.
`example_tensors` lists which entries of the tokenized input are passed
positionally as the example input tuple (line 35). -/
structure ExportConfig where
  example_input : TokenizedInput
  example_tensors : List String
  out_path : String
  input_names : List String
  output_names : List String
  dynamic_axes : List (String × List (Nat × String))
  opset_version : Nat
  do_constant_folding : Bool
deriving DecidableEq, Repr

/-- One external, effectful call made by `download_and_convert`
(a print, a filesystem call, or a third-party library call). -/
inductive Event where
  | print (msg : String)
  | mkdir (path : String) (exist_ok : Bool)
  | tokenizer_from_pretrained (name : String)
  | model_from_pretrained (name : String)
  | tokenizer_save_pretrained (dir : String)
  | model_save_pretrained (dir : String)
  | model_eval
  | tokenize (inputs : TokenizedInput)
  | onnx_export (cfg : ExportConfig)
  | quantize_dynamic (model_input : String) (model_output : String) (weight_type : QuantType)
  | print_traceback
deriving DecidableEq, Repr

/-- Source line 12: `model_name = "BAAI/bge-small-en-v1.5"`. -/
def model_name : String := "BAAI/bge-small-en-v1.5"

/-- Source line 13: `output_dir = Path("bge-small-onnx")`. -/
def output_dir : String := "bge-small-onnx"

/-- POSIX rendering of `pathlib`'s `/` operator: `Path(d) / f` prints as `d ++ "/" ++ f`. -/
def pathJoin (d f : String) : String := d ++ "/" ++ f

/-- Source line 28: the fixed dummy sentence. -/
def dummy_text : String := "This is a sample sentence for conversion."

/-- Source line 29: the tokenized dummy input. -/
def inputs : TokenizedInput :=
  { text := dummy_text
    return_tensors := "pt"
    padding := true
    truncation := true
    max_length := 512 }

/-- Source line 32: `onnx_path = output_dir / "model.onnx"`. -/
def onnx_path : String := pathJoin output_dir "model.onnx"

/-- The file name on source line 52; `quantized_path.name` in lines 63-64
evaluates to exactly this string. -/
def quantized_file : String := "bge-small-en-v1.5-quantized.onnx"

/-- Source line 52: `quantized_path = output_dir / "bge-small-en-v1.5-quantized.onnx"`. -/
def quantized_path : String := pathJoin output_dir quantized_file

/-- The full argument record of the `torch.onnx.export` call, source lines 33-46. -/
def export_call : ExportConfig :=
  { example_input := inputs
    example_tensors := ["input_ids", "attention_mask"]
    out_path := onnx_path
    input_names := ["input_ids", "attention_mask"]
    output_names := ["last_hidden_state"]
    dynamic_axes :=
      [("input_ids", [(0, "batch_size"), (1, "sequence_length")]),
       ("attention_mask", [(0, "batch_size"), (1, "sequence_length")]),
       ("last_hidden_state", [(0, "batch_size"), (1, "sequence_length")])]
    opset_version := 14
    do_constant_folding := true }

/-- The ordered list of external calls performed by `download_and_convert`
(source lines 14-64), one entry per effectful line, in source order. -/
def pipeline_calls : List Event :=
  [ Event.mkdir output_dir true,                                              -- line 14
    Event.print ("Downloading " ++ model_name ++ " from Hugging Face..."),    -- line 16
    Event.tokenizer_from_pretrained model_name,                               -- line 17
    Event.model_from_pretrained model_name,                                   -- line 18
    Event.print "Saving model and tokenizer locally...",                      -- line 20
    Event.tokenizer_save_pretrained output_dir,                               -- line 21
    Event.model_save_pretrained output_dir,                                   -- line 22
    Event.print "Converting to ONNX format...",                               -- line 24
    Event.model_eval,                                                         -- line 25
    Event.tokenize inputs,                                                    -- line 29
    Event.onnx_export export_call,                                            -- lines 33-46
    Event.print ("Model exported to " ++ onnx_path),                          -- line 48
    Event.print "Quantizing model for mobile deployment...",                  -- line 51
    Event.quantize_dynamic onnx_path quantized_path QuantType.QUInt8,         -- lines 53-57
    Event.print ("Quantized model saved to " ++ quantized_path),              -- line 59
    Event.print "\nModel files:",                                             -- line 60
    Event.print ("  - Full precision: " ++ onnx_path),                        -- line 61
    Event.print ("  - Quantized: " ++ quantized_path),                        -- line 62
    Event.print ("\nRecommended for Android: " ++ quantized_file),            -- line 63
    Event.print ("\nNext step: Copy " ++ quantized_file ++
                 " to app/src/main/assets/bge-small-en-v1.5.onnx") ]          -- line 64

/-- The behavior of the external world during one run: which directories
exist when `mkdir` is called, and which external calls raise an exception
(with which rendered message). -/
structure Env where
  dir_exists : String → Bool
  raises : Event → Option PyException

/-- Executing one external call against the environment: `none` means the
call succeeds, `some exc` means it raises `exc`.  `Path.mkdir(exist_ok=ok)`
raises `FileExistsError` exactly when the directory exists and `exist_ok`
is false (the `pathlib` contract); every other call defers to the
environment. -/
def Env.execEvent (env : Env) : Event → Option PyException
  | Event.mkdir path exist_ok =>
      if env.dir_exists path && !exist_ok then some "FileExistsError" else none
  | e => env.raises e

/-- Run a list of external calls in order.  Returns the calls that
completed successfully (in order) and the first raised exception, if any;
a raised exception aborts the rest of the list (Python control flow). -/
def runEvents (env : Env) : List Event → List Event × Option PyException
  | [] => ([], none)
  | e :: es =>
    match env.execEvent e with
    | some exc => ([], some exc)
    | none => (e :: (runEvents env es).1, (runEvents env es).2)

/-- The body of `download_and_convert` (source lines 11-66): perform the
pipeline calls in order; if none raises, return `quantized_path` (line 66),
otherwise propagate the exception to the caller. -/
def download_and_convert (env : Env) : List Event × Except PyException String :=
  match runEvents env pipeline_calls with
  | (tr, some exc) => (tr, Except.error exc)
  | (tr, none) => (tr, Except.ok quantized_path)

/-- Source line 71: the success banner printed after the pipeline returns. -/
def success_banner : String := "\n✅ Conversion completed successfully!"

/-- The observable outcome of running the script: the ordered trace of
external calls (including the final prints of the `__main__` block), and
the exit code explicitly set by the script (`none`: the script never calls
`sys.exit`, so the runtime exits by falling off the end of the module). -/
structure MainResult where
  trace : List Event
  explicit_exit_code : Option Nat
deriving Repr

/-- The `__main__` block (source lines 68-75): run the whole pipeline in a
single `try`; on success print the success banner; on any exception print
the error message followed by the full traceback.  No exception escapes,
and no explicit exit code is set on either path. -/
def main_block (env : Env) : MainResult :=
  match download_and_convert env with
  | (tr, Except.ok _) =>
      { trace := tr ++ [Event.print success_banner], explicit_exit_code := none }
  | (tr, Except.error e) =>
      { trace := tr ++ [Event.print ("\n❌ Error during conversion: " ++ e),
                        Event.print_traceback],
        explicit_exit_code := none }

/-- The quantization scheme families of `onnxruntime.quantization`. -/
inductive QuantScheme where
  | dynamicRange
  | staticCalibrated
deriving DecidableEq, Repr

/-- The weight encoding selected by a `QuantType`: bit width and signedness. -/
structure WeightEncoding where
  bits : Nat
  signed : Bool
deriving DecidableEq, Repr

/-- What a `quantize_dynamic(model_input, model_output, weight_type=wt)`
call means, per the onnxruntime library contract: a dynamic (runtime-range)
quantization scheme, no calibration dataset (the function accepts none),
weights re-encoded at the width and signedness selected by `wt`. -/
def quantize_dynamic_semantics (wt : QuantType) :
    QuantScheme × Option String × WeightEncoding :=
  (QuantScheme.dynamicRange, none,
    match wt with
    | QuantType.QUInt8 => { bits := 8, signed := false }
    | QuantType.QInt8 => { bits := 8, signed := true })

/-- The pipeline stage an external call belongs to, following the spec's
fetch / persist / export / quantize decomposition. -/
inductive Stage where
  | fetch
  | persist
  | exportGraph
  | quantize
deriving DecidableEq, Repr

/-- Classify an external call into its pipeline stage (prints, directory
creation, tokenization and eval-mode bookkeeping belong to no stage). -/
def stage_of : Event → Option Stage
  | Event.tokenizer_from_pretrained _ => some Stage.fetch
  | Event.model_from_pretrained _ => some Stage.fetch
  | Event.tokenizer_save_pretrained _ => some Stage.persist
  | Event.model_save_pretrained _ => some Stage.persist
  | Event.onnx_export _ => some Stage.exportGraph
  | Event.quantize_dynamic _ _ _ => some Stage.quantize
  | _ => none

/-- Is this call the quantization call? -/
def is_quantize : Event → Bool
  | Event.quantize_dynamic _ _ _ => true
  | _ => false

/-- Is this call the tokenization call? -/
def is_tokenize : Event → Bool
  | Event.tokenize _ => true
  | _ => false

/-- The axes (by position) that `cfg.dynamic_axes` declares dynamic for the
tensor named `tensor`. -/
def dynamicAxesOf (cfg : ExportConfig) (tensor : String) : List Nat :=
  (((cfg.dynamic_axes.filter (fun p => p.1 == tensor)).map Prod.snd).flatten).map Prod.fst

/-- An environment in which every external call succeeds and the output
directory does not exist yet (a fresh first run). -/
def env_ok : Env :=
  { dir_exists := fun _ => false, raises := fun _ => none }

/-- An environment in which every external call succeeds and every
directory already exists (a re-run against a populated output directory). -/
def env_rerun : Env :=
  { dir_exists := fun _ => true, raises := fun _ => none }

/-- An environment in which the tokenizer download raises a
`ConnectionError` and everything else succeeds. -/
def env_net_fail : Env :=
  { dir_exists := fun _ => false
    raises := fun e =>
      match e with
      | Event.tokenizer_from_pretrained _ => some "ConnectionError"
      | _ => none }

/-! ## Helper lemmas about runs -/

/-- Unfolding: a call that raises aborts the rest of the list. -/
theorem runEvents_cons_fail (env : Env) (e : Event) (es : List Event) (exc : PyException)
    (he : env.execEvent e = some exc) :
    runEvents env (e :: es) = ([], some exc) := by
  simp only [runEvents, he]

/-- Unfolding: a call that succeeds is recorded and the rest of the list runs. -/
theorem runEvents_cons_ok (env : Env) (e : Event) (es : List Event)
    (he : env.execEvent e = none) :
    runEvents env (e :: es) = (e :: (runEvents env es).1, (runEvents env es).2) := by
  simp only [runEvents, he]

/-- The calls a run completes always form a prefix of the planned call list:
there is no conditional branching and no reordering. -/
theorem runEvents_fst_prefix (env : Env) : ∀ es : List Event, (runEvents env es).1 <+: es := by
  intro es
  induction es with
  | nil => exact List.nil_prefix
  | cons e es ih =>
      cases he : env.execEvent e with
      | some exc =>
          rw [runEvents_cons_fail env e es exc he]
          exact List.nil_prefix
      | none =>
          rw [runEvents_cons_ok env e es he]
          obtain ⟨t, ht⟩ := ih
          exact ⟨t, by rw [List.cons_append, ht]⟩

/-- If no call raises, the run completes every call in order and reports no
exception. -/
theorem runEvents_all_none (env : Env) :
    ∀ es : List Event, (∀ e ∈ es, env.execEvent e = none) → runEvents env es = (es, none) := by
  intro es
  induction es with
  | nil => intro _; rfl
  | cons e es ih =>
      intro h
      have he : env.execEvent e = none := h e (List.mem_cons_self e es)
      rw [runEvents_cons_ok env e es he, ih (fun x hx => h x (List.mem_cons_of_mem e hx))]

/-- If a run reports no exception, it completed every call. -/
theorem runEvents_none_complete (env : Env) :
    ∀ es : List Event, (runEvents env es).2 = none → (runEvents env es).1 = es := by
  intro es
  induction es with
  | nil => intro _; rfl
  | cons e es ih =>
      intro h
      cases he : env.execEvent e with
      | some exc =>
          rw [runEvents_cons_fail env e es exc he] at h
          exact absurd h (by simp)
      | none =>
          rw [runEvents_cons_ok env e es he] at h ⊢
          have h2 : (runEvents env es).2 = none := h
          show e :: (runEvents env es).1 = e :: es
          rw [ih h2]

/-- The trace of `download_and_convert` is the trace of its run. -/
theorem download_and_convert_fst (env : Env) :
    (download_and_convert env).1 = (runEvents env pipeline_calls).1 := by
  unfold download_and_convert
  rcases runEvents env pipeline_calls with ⟨tr, r⟩
  cases r <;> rfl

/-- The success banner differs from every error-message print, whatever the
exception message: the two strings differ at their second character. -/
theorem success_banner_ne_error_msg (s : String) :
    success_banner ≠ "\n❌ Error during conversion: " ++ s := by
  intro h
  have hd : success_banner.data = ("\n❌ Error during conversion: ").data ++ s.data :=
    congrArg String.data h
  have h1 : success_banner.data[1]? = some '✅' := rfl
  rw [hd, List.getElem?_append_left (by decide)] at h1
  exact absurd h1 (by decide)

/-! ## The claims -/

/-- Claim C1: if any pipeline stage raises an exception, it is caught exactly
once at the single top-level guard: the observed trace is the successfully
completed prefix of the pipeline followed by exactly one error-message print
and one traceback print (so no later stage runs), the success banner is never
printed, and the script sets no explicit exit code (the process exits via the
ambient path of the runtime). -/
theorem C1_top_level_error_boundary (env : Env) (exc : PyException)
    (h : (download_and_convert env).2 = Except.error exc) :
    (main_block env).trace =
      (download_and_convert env).1 ++
        [Event.print ("\n❌ Error during conversion: " ++ exc), Event.print_traceback] ∧
    (download_and_convert env).1 <+: pipeline_calls ∧
    Event.print success_banner ∉ (main_block env).trace ∧
    (main_block env).explicit_exit_code = none := by
  rcases hr : runEvents env pipeline_calls with ⟨tr, r⟩
  cases r with
  | none =>
      have hd : download_and_convert env = (tr, Except.ok quantized_path) := by
        unfold download_and_convert
        rw [hr]
      rw [hd] at h
      exact absurd h (by simp)
  | some e0 =>
      have hd : download_and_convert env = (tr, Except.error e0) := by
        unfold download_and_convert
        rw [hr]
      have hexc : e0 = exc := by
        rw [hd] at h
        exact Except.error.inj h
      subst hexc
      have hm : main_block env =
          { trace := tr ++ [Event.print ("\n❌ Error during conversion: " ++ e0),
                            Event.print_traceback],
            explicit_exit_code := none } := by
        unfold main_block
        rw [hd]
      have hpre : tr <+: pipeline_calls := by
        have hp := runEvents_fst_prefix env pipeline_calls
        rw [hr] at hp
        exact hp
      refine ⟨by rw [hm, hd], by rw [hd]; exact hpre, ?_, by rw [hm]⟩
      rw [hm]
      intro hmem
      rcases List.mem_append.mp hmem with h1 | h2
      · exact (by decide : Event.print success_banner ∉ pipeline_calls) (hpre.subset h1)
      · simp only [List.mem_cons, List.not_mem_nil, or_false, Event.print.injEq] at h2
        rcases h2 with h2 | h2
        · exact success_banner_ne_error_msg e0 h2
        · exact Event.noConfusion h2

/-- Claim C1 witness: a run in which the tokenizer download raises a
ConnectionError exhibits the guaranteed error-boundary behavior. -/
theorem C1_top_level_error_boundary_witness :
    (main_block env_net_fail).trace =
      (download_and_convert env_net_fail).1 ++
        [Event.print ("\n❌ Error during conversion: " ++ "ConnectionError"),
         Event.print_traceback] ∧
    (download_and_convert env_net_fail).1 <+: pipeline_calls ∧
    Event.print success_banner ∉ (main_block env_net_fail).trace ∧
    (main_block env_net_fail).explicit_exit_code = none :=
  C1_top_level_error_boundary env_net_fail "ConnectionError" (by decide)

/-- Claim C2 counterexample: the quantized file is NOT named after the full
model identifier "BAAI/bge-small-en-v1.5": no call writes
"bge-small-onnx/BAAI/bge-small-en-v1.5-quantized.onnx"; the actual name drops
the "BAAI/" organization component of the identifier. -/
theorem C2_full_identifier_naming_counterexample :
    quantized_file ≠ model_name ++ "-quantized.onnx" ∧
    quantized_path ≠ pathJoin output_dir (model_name ++ "-quantized.onnx") ∧
    Event.quantize_dynamic onnx_path (pathJoin output_dir (model_name ++ "-quantized.onnx"))
      QuantType.QUInt8 ∉ pipeline_calls ∧
    model_name = "BAAI/" ++ "bge-small-en-v1.5" ∧
    quantized_file = "bge-small-en-v1.5" ++ "-quantized.onnx" := by decide

/-- Claim C2 (amended): the quantized graph file is written into the output
directory under a name formed from the final path component of the model
identifier with a "-quantized" suffix, while the full-precision export is
"model.onnx" in the same directory. -/
theorem C2_output_file_naming :
    model_name = "BAAI/" ++ "bge-small-en-v1.5" ∧
    quantized_file = "bge-small-en-v1.5" ++ "-quantized" ++ ".onnx" ∧
    quantized_path = pathJoin output_dir quantized_file ∧
    onnx_path = pathJoin output_dir "model.onnx" ∧
    Event.quantize_dynamic onnx_path quantized_path QuantType.QUInt8 ∈ pipeline_calls ∧
    Event.onnx_export export_call ∈ pipeline_calls ∧
    export_call.out_path = onnx_path := by decide

/-- Claim C3: the export call names exactly the inputs input_ids and
attention_mask and the output last_hidden_state; exactly those three tensors
carry dynamic-axis declarations; and each of the three declares exactly axes 0
(batch) and 1 (sequence length) dynamic. -/
theorem C3_dynamic_axes_batch_and_sequence :
    export_call.input_names = ["input_ids", "attention_mask"] ∧
    export_call.output_names = ["last_hidden_state"] ∧
    export_call.dynamic_axes.map Prod.fst =
      ["input_ids", "attention_mask", "last_hidden_state"] ∧
    dynamicAxesOf export_call "input_ids" = [0, 1] ∧
    dynamicAxesOf export_call "attention_mask" = [0, 1] ∧
    dynamicAxesOf export_call "last_hidden_state" = [0, 1] := by decide

/-- Claim C4: the one quantization call reads the exported graph from the
exact on-disk path the export call wrote, re-encodes weights as unsigned
8-bit integers under the dynamic (runtime-range) scheme with no calibration
dataset, and writes its output into the same directory as the export. -/
theorem C4_dynamic_quantization_contract :
    pipeline_calls.filter is_quantize =
      [Event.quantize_dynamic onnx_path quantized_path QuantType.QUInt8] ∧
    export_call.out_path = onnx_path ∧
    quantize_dynamic_semantics QuantType.QUInt8 =
      (QuantScheme.dynamicRange, none, { bits := 8, signed := false }) ∧
    onnx_path = pathJoin output_dir "model.onnx" ∧
    quantized_path = pathJoin output_dir quantized_file := by decide

/-- Claim C5: every run performs a prefix of one fixed call sequence (no
conditional branching); a run in which no external call raises performs
exactly the full sequence and returns the quantized path; the staged calls
occur in the strict order fetch, fetch, persist, persist, export, quantize;
the single quantize call consumes the export call's on-disk output path; and
both output paths are printed after the quantize call. -/
theorem C5_orchestration_order (env : Env) :
    (download_and_convert env).1 <+: pipeline_calls ∧
    ((∀ e ∈ pipeline_calls, env.execEvent e = none) →
       download_and_convert env = (pipeline_calls, Except.ok quantized_path)) ∧
    pipeline_calls.filterMap stage_of =
      [Stage.fetch, Stage.fetch, Stage.persist, Stage.persist,
       Stage.exportGraph, Stage.quantize] ∧
    pipeline_calls.filter is_quantize =
      [Event.quantize_dynamic export_call.out_path quantized_path QuantType.QUInt8] ∧
    List.Sublist
      [Event.quantize_dynamic onnx_path quantized_path QuantType.QUInt8,
       Event.print ("  - Full precision: " ++ onnx_path),
       Event.print ("  - Quantized: " ++ quantized_path)]
      pipeline_calls := by
  refine ⟨?_, ?_, by decide, by decide, by decide⟩
  · rw [download_and_convert_fst]
    exact runEvents_fst_prefix env pipeline_calls
  · intro h
    unfold download_and_convert
    rw [runEvents_all_none env pipeline_calls h]

/-- Claim C5 witness: a run in which every external call succeeds performs
exactly the full fixed call sequence and returns the quantized path. -/
theorem C5_orchestration_order_witness :
    (download_and_convert env_ok).1 <+: pipeline_calls ∧
    download_and_convert env_ok = (pipeline_calls, Except.ok quantized_path) :=
  ⟨(C5_orchestration_order env_ok).1, (C5_orchestration_order env_ok).2.1 (by decide)⟩

/-- Claim C6: the pipeline reads no command-line flags, environment variables
or configuration file — identifier, output directory, dummy sentence and
quantization weight type are fixed constants — so any two runs in which the
external libraries raise nothing perform identical call sequences and return
the identical result path. -/
theorem C6_fixed_configuration_determinism (env1 env2 : Env)
    (h1 : ∀ e ∈ pipeline_calls, env1.execEvent e = none)
    (h2 : ∀ e ∈ pipeline_calls, env2.execEvent e = none) :
    download_and_convert env1 = download_and_convert env2 ∧
    (download_and_convert env1).2 = Except.ok quantized_path ∧
    model_name = "BAAI/bge-small-en-v1.5" ∧
    output_dir = "bge-small-onnx" ∧
    dummy_text = "This is a sample sentence for conversion." ∧
    pipeline_calls.filter is_quantize =
      [Event.quantize_dynamic onnx_path quantized_path QuantType.QUInt8] := by
  have d1 : download_and_convert env1 = (pipeline_calls, Except.ok quantized_path) := by
    unfold download_and_convert
    rw [runEvents_all_none env1 pipeline_calls h1]
  have d2 : download_and_convert env2 = (pipeline_calls, Except.ok quantized_path) := by
    unfold download_and_convert
    rw [runEvents_all_none env2 pipeline_calls h2]
  exact ⟨d1.trans d2.symm, by rw [d1], rfl, rfl, rfl, by decide⟩

/-- Claim C6 witness: two fresh runs with well-behaved libraries coincide and
return the quantized path. -/
theorem C6_fixed_configuration_determinism_witness :
    download_and_convert env_ok = download_and_convert env_rerun ∧
    (download_and_convert env_ok).2 = Except.ok quantized_path ∧
    model_name = "BAAI/bge-small-en-v1.5" ∧
    output_dir = "bge-small-onnx" ∧
    dummy_text = "This is a sample sentence for conversion." ∧
    pipeline_calls.filter is_quantize =
      [Event.quantize_dynamic onnx_path quantized_path QuantType.QUInt8] :=
  C6_fixed_configuration_determinism env_ok env_rerun (by decide) (by decide)

/-- Claim C7: the first pipeline call creates the output directory with
exist_ok set, so it raises nothing in an environment where the output
directory already exists (a re-run), and likewise on a fresh run where the
directory is created because it is absent. -/
theorem C7_mkdir_exist_ok_rerun (env : Env)
    (_h : env.dir_exists output_dir = true) :
    pipeline_calls.head? = some (Event.mkdir output_dir true) ∧
    env.execEvent (Event.mkdir output_dir true) = none ∧
    env_ok.execEvent (Event.mkdir output_dir true) = none := by
  refine ⟨rfl, ?_, by decide⟩
  simp [Env.execEvent]

/-- Claim C7 witness: a re-run in which every directory already exists still
executes the directory-creation call without an exception. -/
theorem C7_mkdir_exist_ok_rerun_witness :
    pipeline_calls.head? = some (Event.mkdir output_dir true) ∧
    env_rerun.execEvent (Event.mkdir output_dir true) = none ∧
    env_ok.execEvent (Event.mkdir output_dir true) = none :=
  C7_mkdir_exist_ok_rerun env_rerun rfl

/-- Claim C8: exactly one tokenization call is made; it tokenizes the fixed
dummy sentence with padding and truncation enabled against max_length 512;
and the export call traces the model against exactly that tokenized input,
passing its input_ids and attention_mask tensors. -/
theorem C8_single_traced_input :
    pipeline_calls.filter is_tokenize = [Event.tokenize inputs] ∧
    inputs.text = dummy_text ∧
    inputs.return_tensors = "pt" ∧
    inputs.padding = true ∧
    inputs.truncation = true ∧
    inputs.max_length = 512 ∧
    export_call.example_input = inputs ∧
    export_call.example_tensors = ["input_ids", "attention_mask"] := by decide

/-- Claim C9: the export call fixes opset version 14 and enables constant
folding. -/
theorem C9_opset_and_constant_folding :
    export_call.opset_version = 14 ∧
    export_call.do_constant_folding = true ∧
    Event.onnx_export export_call ∈ pipeline_calls := by decide

/-- Claim C10 counterexample: a successful run returns the full quantized
path, but the final "Recommended for Android" line prints only the base file
name, which differs from that path; no call prints the full path on that
line. -/
theorem C10_recommended_path_counterexample :
    (download_and_convert env_ok).2 = Except.ok quantized_path ∧
    Event.print ("\nRecommended for Android: " ++ quantized_path) ∉ pipeline_calls ∧
    Event.print ("\nRecommended for Android: " ++ quantized_file) ∈ pipeline_calls ∧
    quantized_file ≠ quantized_path := by decide

/-- Claim C10 (amended): every successful run returns the quantized path
(the output directory joined with "bge-small-en-v1.5-quantized.onnx") and
completes every pipeline call; the full quantized path is printed in the
"Quantized:" report line, while the final "Recommended for Android" line
prints that path's base file name. -/
theorem C10_return_value_contract (env : Env) (p : String)
    (h : (download_and_convert env).2 = Except.ok p) :
    p = pathJoin output_dir "bge-small-en-v1.5-quantized.onnx" ∧
    (download_and_convert env).1 = pipeline_calls ∧
    Event.print ("  - Quantized: " ++ quantized_path) ∈ pipeline_calls ∧
    Event.print ("\nRecommended for Android: " ++ quantized_file) ∈ pipeline_calls := by
  rcases hr : runEvents env pipeline_calls with ⟨tr, r⟩
  cases r with
  | some e0 =>
      have hd : download_and_convert env = (tr, Except.error e0) := by
        unfold download_and_convert
        rw [hr]
      rw [hd] at h
      exact absurd h (by simp)
  | none =>
      have htr : tr = pipeline_calls := by
        have hc := runEvents_none_complete env pipeline_calls (by rw [hr])
        rw [hr] at hc
        exact hc
      subst htr
      have hd : download_and_convert env = (pipeline_calls, Except.ok quantized_path) := by
        unfold download_and_convert
        rw [hr]
      rw [hd] at h
      have hp : quantized_path = p := Except.ok.inj h
      exact ⟨hp.symm, by rw [hd], by decide, by decide⟩

/-- Claim C10 witness: the fresh successful run returns exactly the quantized
path and prints the reported lines. -/
theorem C10_return_value_contract_witness :
    quantized_path = pathJoin output_dir "bge-small-en-v1.5-quantized.onnx" ∧
    (download_and_convert env_ok).1 = pipeline_calls ∧
    Event.print ("  - Quantized: " ++ quantized_path) ∈ pipeline_calls ∧
    Event.print ("\nRecommended for Android: " ++ quantized_file) ∈ pipeline_calls :=
  C10_return_value_contract env_ok quantized_path (by decide)

end ConvertBgeToOnnx
